import Mathlib

/-!
Shallow embedding of the CTFE (compile-time function evaluation) machine
policy from `src/librustc_mir/const_eval/machine.rs`.  The generic
interpreter engine (operand evaluation, memory, MIR loading, `tcx`
queries) is an external collaborator; it is modelled as a record of
oracle functions (`EvalCtx`).  Fallible engine operations return
`Except InterpError`; process-aborting paths in the Rust source
(`assert!`, `.expect(..)`, `bug!`) are modelled by the `Outcome.fatal`
constructor, distinct from recoverable interpreter errors.
-/

namespace CtfeMachine

/-- `rustc_hir::def_id::DefId`, an identifier of an item. -/
abbrev DefId := Nat

/-- `interpret::AllocId`, the identity of an allocation. -/
abbrev AllocId := Nat

/-- `mir::BasicBlock` index. -/
abbrev BasicBlock := Nat

/-- A source span, kept abstract. -/
abbrev Span := Nat

/-- A MIR operand, kept abstract; the engine oracle evaluates it. -/
abbrev Operand := Nat

/-- An immediate produced by `eval_operand`, kept abstract. -/
abbrev Imm := Nat

/-- An `ImmTy` produced by `read_immediate`, kept abstract. -/
abbrev ImmTyVal := Nat

/-- An `interpret::Scalar`, kept abstract. -/
abbrev ScalarVal := Nat

/-- A dereferenced memory place (`MPlaceTy`), kept abstract. -/
abbrev MemPlace := Nat

/-- The place returned by `const_eval_raw`, kept abstract. -/
abbrev RawPlace := Nat

/-- A `PlaceTy` return destination, kept abstract. -/
abbrev PlaceTy := Nat

/-- A MIR body handle (`&mir::Body`), kept abstract. -/
abbrev Body := Nat

/-- A `ty::Ty` handle, kept abstract. -/
abbrev Ty := Nat

/-- A `mir::BinOp`, kept abstract (only passed through). -/
abbrev BinOp := Nat

/-- A `hir::GeneratorKind`, kept abstract (only passed through). -/
abbrev GeneratorKind := Nat

/-- The `&Memory` parameter of `ptr_to_int`, kept abstract (unused). -/
abbrev MemoryRef := Nat

/-- An `interpret::Pointer`, kept abstract (unused by this machine). -/
abbrev PointerVal := Nat

/-- `rustc_ast::ast::Mutability`: `Not` (immutable) or `Mut`. -/
inductive Mutability
  | not
  | mut
deriving DecidableEq

/-- The slice of `interpret::Allocation` read by this machine: its
mutability flag.  (Contents, size and alignment are never inspected by
`machine.rs` and are elided.) -/
structure Allocation where
  mutability : Mutability
deriving DecidableEq

/-- `ty::InstanceDef`: either an `Item` or one of the compiler-generated
glue variants (`VtableShim`, `Intrinsic`, `ClosureOnceShim`, `DropGlue`,
`CloneShim`, ..), which `find_mir_or_eval_fn` does not inspect further
and which are collapsed into one `glue` constructor carrying the def-id
returned by `def_id()`. -/
inductive InstanceDef
  | item (defId : DefId)
  | glue (defId : DefId) (code : Nat)
deriving DecidableEq

/-- `InstanceDef::def_id()`. -/
def InstanceDef.def_id : InstanceDef → DefId
  | .item d => d
  | .glue d _ => d

/-- The slice of `ty::Instance` used by `machine.rs`: its `def` field and
the string its `Display` instance renders (used by `format!` in the
non-const rejection message). -/
structure Instance where
  def_ : InstanceDef
  name : String
deriving DecidableEq

/-- `Instance::def_id()`. -/
def Instance.def_id (i : Instance) : DefId := i.def_.def_id

/-- The layout slice used here: `layout.is_zst()`. -/
structure Layout where
  is_zst : Bool
deriving DecidableEq

/-- The slice of `OpTy` used here: an abstract identity (fed to the
engine oracles) and its layout. -/
structure OpTy where
  id : Nat
  layout : Layout
deriving DecidableEq

/-- `interpret::GlobalId`: the memoization key `(instance, promoted)`. -/
structure GlobalId where
  inst : Instance
  promoted : Option Nat
deriving DecidableEq

/-- `mir::AssertKind<T>` (the variants of `AssertMessage`). -/
inductive AssertKind (T : Type)
  | boundsCheck (len index : T)
  | overflow (op : BinOp)
  | overflowNeg
  | divisionByZero
  | remainderByZero
  | resumedAfterReturn (g : GeneratorKind)
  | resumedAfterPanic (g : GeneratorKind)
deriving DecidableEq

/-- Modelled from the spec: the variants of `ConstEvalErrKind` from
`super::error` (the file `const_eval/error.rs` is not part of the
sources), exactly the constructors `machine.rs` builds: `NeedsRfc`,
`ConstAccessesStatic`, `ModifiedGlobal`, `AssertFailure` over concrete
`u64` values, and `Panic` with message and (file, line, column). -/
inductive ConstEvalErrKind
  | needsRfc (reason : String)
  | constAccessesStatic
  | modifiedGlobal
  | assertFailure (k : AssertKind Nat)
  | panic (msg : String) (file : String) (line col : Nat)
deriving DecidableEq

/-- The engine-level interpreter error, as far as `machine.rs` can
distinguish it: a lifted `ConstEvalErrKind` (via `.into()`), the
undefined-behaviour error `err_ub!(WriteToReadOnly(..))`, the resource
error `throw_exhaust!(StepLimitReached)`, the unsupported-operation
error `throw_unsup_format!(..)` carrying a formatted string, the
`err_unsup!(NoMirFor(..))` error pattern-matched in
`find_mir_or_eval_fn`, and any other engine-produced error propagated
without inspection. -/
inductive InterpError
  | constEval (k : ConstEvalErrKind)
  | writeToReadOnly (id : AllocId)
  | stepLimitReached
  | unsupportedFormat (msg : String)
  | noMirFor (did : DefId)
  | engine (code : Nat)
deriving DecidableEq

/-- The outcome of a machine operation: a Rust `InterpResult` enriched
with a `fatal` constructor for the process-aborting paths (`assert!`,
`.expect(..)`, `bug!`), which are not recoverable errors. -/
inductive Outcome (ε α : Type)
  | ok (a : α)
  | err (e : ε)
  | fatal (msg : String)
deriving DecidableEq

/-- `InterpResult<'tcx, α>` (plus the fatal-abort paths). -/
abbrev InterpResult (α : Type) := Outcome InterpError α

/-- The machine state: `CompileTimeInterpreter { steps_remaining }`. -/
structure CompileTimeInterpreter where
  steps_remaining : Nat
deriving DecidableEq

/-- `CompileTimeInterpreter::new(const_eval_limit)`. -/
def CompileTimeInterpreter.new (const_eval_limit : Nat) : CompileTimeInterpreter :=
  ⟨const_eval_limit⟩

/-- `MemoryExtra { can_access_statics }`. -/
structure MemoryExtra where
  can_access_statics : Bool
deriving DecidableEq

/-- `before_terminator`: the step-budget check.  Mutation of
`ecx.machine.steps_remaining` is modelled by returning the new machine
state next to the result. -/
def before_terminator (m : CompileTimeInterpreter) :
    InterpResult Unit × CompileTimeInterpreter :=
  if m.steps_remaining = 0 then
    (.ok (), m)
  else
    let m' : CompileTimeInterpreter := ⟨m.steps_remaining - 1⟩
    if m'.steps_remaining = 0 then
      (.err .stepLimitReached, m')
    else
      (.ok (), m')

/-- The machine state after `k` successive calls of `before_terminator`
(results discarded), starting from `m`. -/
def runTerminators (m : CompileTimeInterpreter) : Nat → CompileTimeInterpreter
  | 0 => m
  | k + 1 => runTerminators (before_terminator m).2 k

/-- `before_access_global`: the static/global access guard.  The
`assert_eq!(allocation.mutability, Mutability::Not)` on the anonymous
read path is the `fatal` branch. -/
def before_access_global (memory_extra : MemoryExtra) (alloc_id : AllocId)
    (allocation : Allocation) (static_def_id : Option DefId)
    (is_write : Bool) : InterpResult Unit :=
  if is_write then
    if allocation.mutability = Mutability.not then
      .err (.writeToReadOnly alloc_id)
    else
      .err (.constEval .modifiedGlobal)
  else
    if memory_extra.can_access_statics then
      .ok ()
    else if static_def_id.isSome then
      .err (.constEval .constAccessesStatic)
    else
      if allocation.mutability = Mutability.not then
        .ok ()
      else
        .fatal "assertion failed: allocation.mutability == Mutability::Not"

/-- `enforce_alignment`: unconditionally `false`. -/
def enforce_alignment (_memory_extra : MemoryExtra) : Bool := false

/-- `enforce_validity`: unconditionally `false`.  The `&InterpCx`
argument is only the machine state here; nothing of it is read. -/
def enforce_validity (_ecx : CompileTimeInterpreter) : Bool := false

/-- `ptr_to_int`: unconditional `NeedsRfc` rejection. -/
def ptr_to_int (_mem : MemoryRef) (_ptr : PointerVal) : InterpResult Nat :=
  .err (.constEval (.needsRfc "pointer-to-integer cast"))

/-- `binary_ptr_op`: unconditional `NeedsRfc` rejection. -/
def binary_ptr_op (_ecx : CompileTimeInterpreter) (_bin_op : BinOp)
    (_left _right : ImmTyVal) : InterpResult (ScalarVal × Bool × Ty) :=
  .err (.constEval (.needsRfc "pointer arithmetic or comparison"))

/-- `box_alloc`: unconditional `NeedsRfc` rejection. -/
def box_alloc (_ecx : CompileTimeInterpreter) (_dest : PlaceTy) :
    InterpResult Unit :=
  .err (.constEval (.needsRfc "heap allocations via `box` keyword"))

/-- Association-list lookup modelling `FxHashMap::get`. -/
def lookupA {K V : Type} [DecidableEq K] : List (K × V) → K → Option V
  | [], _ => none
  | (k, v) :: rest, q => if k = q then some v else lookupA rest q

/-- The `AllocMap::get_or` impl for `FxHashMap`: on a hit return the
stored value; on a miss run the `vacant` closure, propagate its error,
and reach `bug!(..)` if it succeeds.  Taking `&self`, it cannot modify
the map; the closure is modelled by its result value. -/
def get_or {K V E : Type} [DecidableEq K] (m : List (K × V)) (k : K)
    (vacant : Except E V) : Outcome E V :=
  match lookupA m k with
  | some v => .ok v
  | none =>
    match vacant with
    | .error e => .err e
    | .ok _ =>
      .fatal "bug: the CTFE machine should never need to extend the alloc_map when reading"

/-- The `AllocMap::get_mut_or` impl for `FxHashMap`: on a hit return the
stored value and the unchanged map; on a miss run `vacant`, propagate
its error, and otherwise insert its value and return it. -/
def get_mut_or {K V E : Type} [DecidableEq K] (m : List (K × V)) (k : K)
    (vacant : Except E V) : Outcome E (V × List (K × V)) :=
  match lookupA m k with
  | some v => .ok (v, m)
  | none =>
    match vacant with
    | .error e => .err e
    | .ok v => .ok (v, (k, v) :: m)

/-- The engine and `tcx` oracle: every external operation `machine.rs`
invokes on `InterpCx`, `Memory` or the type context, with its
fallibility.  `read_immediate` is listed fallible because its result is
`.expect(..)`-ed (a fatal abort) in `assert_panic`. -/
structure EvalCtx where
  is_const_fn_raw : DefId → Bool
  panic_fn : Option DefId
  begin_panic_fn : Option DefId
  def_path_str : DefId → String
  requires_caller_location : InstanceDef → Bool
  const_eval_raw : GlobalId → Except InterpError RawPlace
  copy_op : RawPlace → PlaceTy → Except InterpError Unit
  return_to_block : Option BasicBlock → Except InterpError Unit
  deref_operand : OpTy → Except InterpError MemPlace
  read_str : MemPlace → Except InterpError String
  find_closest_untracked_caller_location : Span
  location_triple_for_span : Span → String × Nat × Nat
  eval_operand : Operand → Except InterpError Imm
  read_immediate : Imm → Except InterpError ImmTyVal
  to_scalar : ImmTyVal → Except InterpError ScalarVal
  to_machine_usize : ScalarVal → Except InterpError Nat
  load_mir : InstanceDef → Except InterpError Body

/-- The engine operations `try_eval_const_fn_call` and
`find_mir_or_eval_fn` perform, recorded as a trace so that the absence
of evaluation or body resolution on the early-return paths is a
provable fact. -/
inductive Event
  | constEvalRaw (gid : GlobalId)
  | copyOp (src : RawPlace) (dest : PlaceTy)
  | returnToBlock (b : Option BasicBlock)
  | dumpPlace (dest : PlaceTy)
  | loadMir (d : InstanceDef)
deriving DecidableEq

/-- `try_eval_const_fn_call`: the memoized zero-size-argument const-call
shortcut.  Returns the `InterpResult<bool>` next to the trace of engine
operations performed. -/
def try_eval_const_fn_call (ecx : EvalCtx) (inst : Instance)
    (ret : Option (PlaceTy × BasicBlock)) (args : List OpTy) :
    InterpResult Bool × List Event :=
  if ecx.requires_caller_location inst.def_ then
    (.ok false, [])
  else if args.any (fun a => !a.layout.is_zst) then
    (.ok false, [])
  else
    match ret with
    | none => (.ok false, [])
    | some (dest, b) =>
      let gid : GlobalId := ⟨inst, none⟩
      match ecx.const_eval_raw gid with
      | .error e => (.err e, [.constEvalRaw gid])
      | .ok place =>
        match ecx.copy_op place dest with
        | .error e => (.err e, [.constEvalRaw gid, .copyOp place dest])
        | .ok _ =>
          match ecx.return_to_block (some b) with
          | .error e =>
            (.err e, [.constEvalRaw gid, .copyOp place dest, .returnToBlock (some b)])
          | .ok _ =>
            (.ok true,
             [.constEvalRaw gid, .copyOp place dest, .returnToBlock (some b),
              .dumpPlace dest])

/-- `hook_panic_fn`: intercept the two designated panic entry points.
The `assert!(args.len() == 1)` is the `fatal` branch. -/
def hook_panic_fn (ecx : EvalCtx) (inst : Instance) (args : List OpTy) :
    InterpResult Unit :=
  if some inst.def_id = ecx.panic_fn ∨ some inst.def_id = ecx.begin_panic_fn then
    if args.length = 1 then
      match args.head? with
      | none => .fatal "unreachable: a list of length 1 has a head"
      | some arg =>
        match ecx.deref_operand arg with
        | .error e => .err e
        | .ok msg_place =>
          match ecx.read_str msg_place with
          | .error e => .err e
          | .ok msg =>
            let span := ecx.find_closest_untracked_caller_location
            match ecx.location_triple_for_span span with
            | (file, line, col) => .err (.constEval (.panic msg file line col))
    else
      .fatal "assertion failed: args.len() == 1"
  else
    .ok ()

/-- The body-resolution tail of `find_mir_or_eval_fn`: `load_mir`, with
the `err_unsup!(NoMirFor(..))` case rewritten into
`NeedsRfc("calling extern function ..")` and every other error
propagated unchanged.  `evs` is the trace accumulated so far. -/
def eval_load_mir (ecx : EvalCtx) (d : InstanceDef) (evs : List Event) :
    InterpResult (Option Body) × List Event :=
  match ecx.load_mir d with
  | .ok body => (.ok (some body), evs ++ [.loadMir d])
  | .error (.noMirFor did) =>
    (.err (.constEval (.needsRfc ("calling extern function `" ++ ecx.def_path_str did ++ "`"))),
     evs ++ [.loadMir d])
  | .error e => (.err e, evs ++ [.loadMir d])

/-- `find_mir_or_eval_fn`: the call router.  `Ok none` means the call
was fully handled by memoization; `Ok (some body)` hands the body to the
engine for execution. -/
def find_mir_or_eval_fn (ecx : EvalCtx) (inst : Instance) (args : List OpTy)
    (ret : Option (PlaceTy × BasicBlock)) (_unwind : Option BasicBlock) :
    InterpResult (Option Body) × List Event :=
  match inst.def_ with
  | .item def_id =>
    if ecx.is_const_fn_raw def_id then
      match try_eval_const_fn_call ecx inst ret args with
      | (.ok true, evs) => (.ok none, evs)
      | (.ok false, evs) => eval_load_mir ecx inst.def_ evs
      | (.err e, evs) => (.err e, evs)
      | (.fatal msg, evs) => (.fatal msg, evs)
    else
      match hook_panic_fn ecx inst args with
      | .ok _ =>
        (.err (.unsupportedFormat ("calling non-const function `" ++ inst.name ++ "`")), [])
      | .err e => (.err e, [])
      | .fatal msg => (.fatal msg, [])
  | d => eval_load_mir ecx d []

/-- `assert_panic`: materialize a symbolic `AssertMessage` into a
concrete `AssertFailure` error.  For `BoundsCheck`, `eval_operand`,
`to_scalar` and `to_machine_usize` failures propagate with `?`, while a
`read_immediate` failure hits `.expect("cannot eval len/index")` and is
fatal. -/
def assert_panic (ecx : EvalCtx) (msg : AssertKind Operand)
    (_unwind : Option BasicBlock) : InterpResult Unit :=
  match msg with
  | .boundsCheck len index =>
    match ecx.eval_operand len with
    | .error e => .err e
    | .ok lenImm =>
      match ecx.read_immediate lenImm with
      | .error _ => .fatal "cannot eval len"
      | .ok lenImmTy =>
        match ecx.to_scalar lenImmTy with
        | .error e => .err e
        | .ok lenScalar =>
          match ecx.to_machine_usize lenScalar with
          | .error e => .err e
          | .ok lenVal =>
            match ecx.eval_operand index with
            | .error e => .err e
            | .ok idxImm =>
              match ecx.read_immediate idxImm with
              | .error _ => .fatal "cannot eval index"
              | .ok idxImmTy =>
                match ecx.to_scalar idxImmTy with
                | .error e => .err e
                | .ok idxScalar =>
                  match ecx.to_machine_usize idxScalar with
                  | .error e => .err e
                  | .ok idxVal =>
                    .err (.constEval (.assertFailure (.boundsCheck lenVal idxVal)))
  | .overflow op => .err (.constEval (.assertFailure (.overflow op)))
  | .overflowNeg => .err (.constEval (.assertFailure .overflowNeg))
  | .divisionByZero => .err (.constEval (.assertFailure .divisionByZero))
  | .remainderByZero => .err (.constEval (.assertFailure .remainderByZero))
  | .resumedAfterReturn g => .err (.constEval (.assertFailure (.resumedAfterReturn g)))
  | .resumedAfterPanic g => .err (.constEval (.assertFailure (.resumedAfterPanic g)))

/-! ## Theorems -/

/-- After any call, the machine counter is the old counter minus one
(saturating): the unbounded and exhausted cases leave zero at zero. -/
theorem before_terminator_snd (m : CompileTimeInterpreter) :
    (before_terminator m).2 = ⟨m.steps_remaining - 1⟩ := by
  rcases m with ⟨s⟩
  unfold before_terminator
  rcases Nat.eq_zero_or_pos s with h | h
  · subst h
    rfl
  · simp only [Nat.pos_iff_ne_zero] at h
    simp only [h, if_false]
    split <;> rfl

/-- Iterating `before_terminator` `k` times from counter `n` leaves
counter `n - k`. -/
theorem runTerminators_steps (n k : Nat) :
    runTerminators ⟨n⟩ k = ⟨n - k⟩ := by
  induction k generalizing n with
  | zero => simp [runTerminators]
  | succ k ih =>
    show runTerminators (before_terminator ⟨n⟩).2 k = _
    rw [before_terminator_snd]
    simp only [ih]
    congr 1
    omega

/-- C1: Step Budget Governor contract.  With a configured limit of 0 the
check always succeeds (the counter stays at 0 and the zero branch
returns success).  With a positive counter, each call decrements by one
and fails with `StepLimitReached` exactly when the decremented counter
reaches zero, i.e. (starting from a limit `N > 0`) exactly on call
number `N` and never earlier; once the counter is zero every later call
succeeds, leaves the counter unchanged, and never re-reports. -/
theorem before_terminator_step_budget :
    (∀ k, (before_terminator (runTerminators ⟨0⟩ k)).1 = .ok () ∧
      (runTerminators ⟨0⟩ k).steps_remaining = 0) ∧
    (∀ m : CompileTimeInterpreter, 0 < m.steps_remaining →
      (before_terminator m).2.steps_remaining = m.steps_remaining - 1 ∧
      ((before_terminator m).1 = .err .stepLimitReached ↔ m.steps_remaining = 1) ∧
      (m.steps_remaining ≠ 1 → (before_terminator m).1 = .ok ())) ∧
    (∀ m : CompileTimeInterpreter, m.steps_remaining = 0 →
      before_terminator m = (.ok (), m)) ∧
    (∀ N i, 0 < N → 1 ≤ i →
      ((before_terminator (runTerminators ⟨N⟩ (i - 1))).1 = .err .stepLimitReached ↔
        i = N)) := by
  refine ⟨?_, ?_, ?_, ?_⟩
  · intro k
    rw [runTerminators_steps]
    rw [Nat.zero_sub]
    exact ⟨rfl, rfl⟩
  · intro m hm
    have h0 : m.steps_remaining ≠ 0 := by omega
    refine ⟨by rw [before_terminator_snd], ?_, ?_⟩
    · unfold before_terminator
      simp only [h0, if_false]
      constructor
      · intro h
        by_contra hne
        have : m.steps_remaining - 1 ≠ 0 := by omega
        simp [this] at h
      · intro h
        simp [h]
    · intro h1
      unfold before_terminator
      have : m.steps_remaining - 1 ≠ 0 := by omega
      simp [h0, this]
  · intro m hm
    rcases m with ⟨s⟩
    simp only at hm
    subst hm
    rfl
  · intro N i hN hi
    rw [runTerminators_steps]
    unfold before_terminator
    rcases Nat.lt_or_ge i N with h | h
    · have h1 : N - (i - 1) ≠ 0 := by omega
      have h2 : N - (i - 1) - 1 ≠ 0 := by omega
      simp [h1, h2]
      omega
    · rcases Nat.eq_or_lt_of_le h with h | h
      · have h1 : N - (i - 1) ≠ 0 := by omega
        have h2 : N - (i - 1) - 1 = 0 := by omega
        simp [h1, h2]
        omega
      · have h1 : N - (i - 1) = 0 := by omega
        simp [h1]
        omega

/-- Witness for C1: with limit 3, the third call fails with
`StepLimitReached`. -/
theorem before_terminator_step_budget_witness :
    (before_terminator (runTerminators ⟨3⟩ 2)).1 = .err .stepLimitReached :=
  (before_terminator_step_budget.2.2.2 3 3 (by decide) (by decide)).mpr rfl

/-- C2: Global write rejection.  Every write access checked by
`before_access_global` errs: `WriteToReadOnly` carrying the allocation
id when the allocation is immutable (`Mutability::Not`), and
`ModifiedGlobal` otherwise; no write access ever succeeds.  The check
itself is a pure function of its arguments (it takes `&MemoryExtra` and
`&Allocation` and returns no new state). -/
theorem before_access_global_write_rejected (me : MemoryExtra)
    (id : AllocId) (sid : Option DefId) :
    before_access_global me id ⟨.not⟩ sid true = .err (.writeToReadOnly id) ∧
    before_access_global me id ⟨.mut⟩ sid true = .err (.constEval .modifiedGlobal) ∧
    (∀ a : Allocation, before_access_global me id a sid true ≠ .ok ()) := by
  refine ⟨rfl, rfl, ?_⟩
  intro a
  rcases a with ⟨m⟩
  cases m <;> simp [before_access_global]

/-- Witness for C2: a concrete write to an immutable global (allocation
id 5) is rejected with `WriteToReadOnly 5`. -/
theorem before_access_global_write_rejected_witness :
    before_access_global ⟨true⟩ 5 ⟨.not⟩ none true =
      .err (.writeToReadOnly 5) :=
  (before_access_global_write_rejected ⟨true⟩ 5 none).1

/-- C3: Static read gating.  With `can_access_statics = true` every read
succeeds; with `can_access_statics = false` a read of an allocation
backing a named static (`static_def_id = some _`) fails with
`ConstAccessesStatic`; a read of an anonymous global succeeds when the
allocation is immutable and hits the fatal internal assertion
`assert_eq!(allocation.mutability, Mutability::Not)` when it is
mutable. -/
theorem before_access_global_read_gating (id : AllocId) :
    (∀ (a : Allocation) (sid : Option DefId),
      before_access_global ⟨true⟩ id a sid false = .ok ()) ∧
    (∀ (a : Allocation) (d : DefId),
      before_access_global ⟨false⟩ id a (some d) false =
        .err (.constEval .constAccessesStatic)) ∧
    before_access_global ⟨false⟩ id ⟨.not⟩ none false = .ok () ∧
    before_access_global ⟨false⟩ id ⟨.mut⟩ none false =
      .fatal "assertion failed: allocation.mutability == Mutability::Not" := by
  refine ⟨fun a sid => rfl, fun a d => rfl, rfl, rfl⟩

/-- C8: Restriction totality.  `ptr_to_int`, `binary_ptr_op` and
`box_alloc` each unconditionally return the respective `NeedsRfc` error,
for all operand values; as pure functions returning only the error, they
have no side effects. -/
theorem restriction_policy_total :
    (∀ (mem : MemoryRef) (p : PointerVal),
      ptr_to_int mem p = .err (.constEval (.needsRfc "pointer-to-integer cast"))) ∧
    (∀ (ecx : CompileTimeInterpreter) (op : BinOp) (l r : ImmTyVal),
      binary_ptr_op ecx op l r =
        .err (.constEval (.needsRfc "pointer arithmetic or comparison"))) ∧
    (∀ (ecx : CompileTimeInterpreter) (dest : PlaceTy),
      box_alloc ecx dest =
        .err (.constEval (.needsRfc "heap allocations via `box` keyword"))) :=
  ⟨fun _ _ => rfl, fun _ _ _ _ => rfl, fun _ _ => rfl⟩

/-- C10: the optional engine checking hooks are disabled
unconditionally: `enforce_alignment` is `false` for every memory-extra
state and `enforce_validity` is `false` for every interpreter state. -/
theorem enforce_hooks_disabled :
    (∀ me : MemoryExtra, enforce_alignment me = false) ∧
    (∀ ecx : CompileTimeInterpreter, enforce_validity ecx = false) :=
  ⟨fun _ => rfl, fun _ => rfl⟩

/-- C9: Allocation-map adapter read/write asymmetry.  `get_or` on a
present key returns the stored value, with a result independent of the
vacant closure (it is not invoked); on an absent key it propagates the
closure error and hits the fatal `bug!(..)` when the closure succeeds,
so it never produces a value for an absent key and (taking the map by
shared reference) never extends the map, whereas `get_mut_or` on an
absent key does insert the closure value and return it, leaving the map
unchanged only on a hit. -/
theorem alloc_map_read_write_asymmetry {K V E : Type} [DecidableEq K]
    (m : List (K × V)) (k : K) :
    (∀ (v : V) (vac vac₂ : Except E V), lookupA m k = some v →
      get_or m k vac = .ok v ∧ get_or m k vac = get_or m k vac₂ ∧
      get_mut_or m k vac = .ok (v, m)) ∧
    (∀ e : E, lookupA m k = none → get_or m k (.error e) = .err e) ∧
    (∀ v : V, lookupA m k = none →
      get_or m k (Except.ok v : Except E V) =
        .fatal "bug: the CTFE machine should never need to extend the alloc_map when reading" ∧
      get_mut_or m k (Except.ok v : Except E V) = .ok (v, (k, v) :: m)) ∧
    (∀ e : E, lookupA m k = none → get_mut_or m k (.error e) = .err e) ∧
    (∀ (vac : Except E V) (v : V), get_or m k vac = .ok v → lookupA m k = some v) := by
  refine ⟨?_, ?_, ?_, ?_, ?_⟩
  · intro v vac vac₂ h
    simp [get_or, get_mut_or, h]
  · intro e h
    simp [get_or, h]
  · intro v h
    simp [get_or, get_mut_or, h]
  · intro e h
    simp [get_mut_or, h]
  · intro vac v h
    unfold get_or at h
    rcases hl : lookupA m k with _ | w
    · rw [hl] at h
      rcases vac with e | w₂ <;> simp at h
    · rw [hl] at h
      simp at h
      rw [h]

/-- Witness for C9: on the concrete map `[(1, 10)]`, a read of the
present key `1` returns the stored `10` and a read of the absent key
`2` propagates the vacant error; the mutable lookup on `2` inserts. -/
theorem alloc_map_read_write_asymmetry_witness :
    get_or ([(1, 10)] : List (Nat × Nat)) 1 (Except.error (0 : Nat)) = .ok 10 ∧
    get_or ([(1, 10)] : List (Nat × Nat)) 2 (Except.error (7 : Nat)) = .err 7 ∧
    get_mut_or ([(1, 10)] : List (Nat × Nat)) 2 (Except.ok 5 : Except Nat Nat) =
      .ok (5, [(2, 5), (1, 10)]) :=
  ⟨((alloc_map_read_write_asymmetry [(1, 10)] 1).1 10 (Except.error 0)
      (Except.error 0) (by decide)).1,
   (alloc_map_read_write_asymmetry [(1, 10)] 2).2.1 7 (by decide),
   ((alloc_map_read_write_asymmetry [(1, 10)] 2).2.2.1 5 (by decide)).2⟩

/-- A concrete, all-succeeding engine oracle, used to evaluate the
machine functions on closed inputs. -/
def exCtx : EvalCtx where
  is_const_fn_raw := fun _ => true
  panic_fn := some 100
  begin_panic_fn := some 101
  def_path_str := fun _ => "f"
  requires_caller_location := fun _ => false
  const_eval_raw := fun _ => .ok 0
  copy_op := fun _ _ => .ok ()
  return_to_block := fun _ => .ok ()
  deref_operand := fun o => .ok o.id
  read_str := fun _ => .ok "oops"
  find_closest_untracked_caller_location := 3
  location_triple_for_span := fun s => ("lib.rs", s, s + 1)
  eval_operand := fun o => .ok o
  read_immediate := fun i => .ok i
  to_scalar := fun i => .ok i
  to_machine_usize := fun s => .ok s
  load_mir := fun _ => .ok 42

/-- `exCtx` with `is_const_fn_raw` answering `false` everywhere: every
item callee is a non-const function. -/
def exCtxNC : EvalCtx :=
  { exCtx with is_const_fn_raw := fun _ => false }

/-- `exCtx` with an `eval_operand` oracle that fails with an engine
error. -/
def exCtxFail : EvalCtx :=
  { exCtx with eval_operand := fun _ => .error (.engine 42) }

/-- C4: Memoized const-call shortcut.  `try_eval_const_fn_call` returns
`false` with an empty engine trace (no memoized evaluation, no copy, no
control-flow effect) whenever the callee requires an implicit
caller-location argument, or some argument has a non-zero-size layout,
or there is no return destination; otherwise, when the engine
sub-evaluation under the key `(instance, promoted = none)` and the
subsequent copy and block transfer succeed, it performs exactly the
cached evaluation, the copy into the return place and the transfer to
the successor block, and returns `true` — in which case
`find_mir_or_eval_fn` on a const-fn item callee reports the call as
handled (`Ok none`) with no body resolution in the trace. -/
theorem try_eval_const_fn_call_memoization (ecx : EvalCtx) (inst : Instance)
    (ret : Option (PlaceTy × BasicBlock)) (args : List OpTy) :
    ((ecx.requires_caller_location inst.def_ = true ∨
      (∃ a ∈ args, a.layout.is_zst = false) ∨ ret = none) →
      try_eval_const_fn_call ecx inst ret args = (.ok false, [])) ∧
    (∀ (dest : PlaceTy) (b : BasicBlock) (place : RawPlace),
      ecx.requires_caller_location inst.def_ = false →
      (∀ a ∈ args, a.layout.is_zst = true) →
      ret = some (dest, b) →
      ecx.const_eval_raw ⟨inst, none⟩ = .ok place →
      ecx.copy_op place dest = .ok () →
      ecx.return_to_block (some b) = .ok () →
      try_eval_const_fn_call ecx inst ret args =
        (.ok true,
         [.constEvalRaw ⟨inst, none⟩, .copyOp place dest,
          .returnToBlock (some b), .dumpPlace dest]) ∧
      (∀ (d : DefId) (u : Option BasicBlock),
        inst.def_ = .item d →
        ecx.is_const_fn_raw d = true →
        find_mir_or_eval_fn ecx inst args ret u =
          (.ok none,
           [.constEvalRaw ⟨inst, none⟩, .copyOp place dest,
            .returnToBlock (some b), .dumpPlace dest]))) := by
  constructor
  · intro h
    unfold try_eval_const_fn_call
    rcases h with h | ⟨a, ha, hz⟩ | h
    · simp [h]
    · have hany : args.any (fun a => !a.layout.is_zst) = true := by
        rw [List.any_eq_true]
        exact ⟨a, ha, by simp [hz]⟩
      split
      · rfl
      · simp [hany]
    · subst h
      split
      · rfl
      · split
        · rfl
        · rfl
  · intro dest b place h1 h2 h3 h4 h5 h6
    subst h3
    have hany : args.any (fun a => !a.layout.is_zst) = false := by
      rw [List.any_eq_false]
      intro a ha
      simp [h2 a ha]
    have hmain : try_eval_const_fn_call ecx inst (some (dest, b)) args =
        (.ok true,
         [.constEvalRaw ⟨inst, none⟩, .copyOp place dest,
          .returnToBlock (some b), .dumpPlace dest]) := by
      unfold try_eval_const_fn_call
      simp [h1, hany, h4, h5, h6]
    refine ⟨hmain, ?_⟩
    intro d u hd hconst
    unfold find_mir_or_eval_fn
    rw [hd]
    simp only [hconst, if_true]
    rw [← hd, hmain]

/-- Witness for C4: on the all-succeeding oracle and a const-fn item
callee with no arguments and a return destination, the shortcut fires
and the router reports the call handled. -/
theorem try_eval_const_fn_call_memoization_witness :
    try_eval_const_fn_call exCtx ⟨.item 7, "foo"⟩ (some (0, 5)) [] =
      (.ok true,
       [.constEvalRaw ⟨⟨.item 7, "foo"⟩, none⟩, .copyOp 0 0,
        .returnToBlock (some 5), .dumpPlace 0]) ∧
    find_mir_or_eval_fn exCtx ⟨.item 7, "foo"⟩ [] (some (0, 5)) none =
      (.ok none,
       [.constEvalRaw ⟨⟨.item 7, "foo"⟩, none⟩, .copyOp 0 0,
        .returnToBlock (some 5), .dumpPlace 0]) := by
  have h := (try_eval_const_fn_call_memoization exCtx ⟨.item 7, "foo"⟩
      (some (0, 5)) []).2 0 5 0 rfl (by simp) rfl rfl rfl rfl
  exact ⟨h.1, h.2 7 none rfl rfl⟩

/-- C5 counterexample: at the concrete non-const item callee `foo`, the
router rejects with the engine unsupported-operation error produced by
`throw_unsup_format!`, which is not the `ConstEvalErrKind::NeedsRfc`
error the claim names (that constructor is reserved in this file for
extern functions, intrinsics and the pointer/heap restrictions). -/
theorem find_mir_non_const_counterexample :
    (find_mir_or_eval_fn exCtxNC ⟨.item 7, "foo"⟩ [] none none).1 =
      .err (.unsupportedFormat "calling non-const function `foo`") ∧
    (find_mir_or_eval_fn exCtxNC ⟨.item 7, "foo"⟩ [] none none).1 ≠
      .err (.constEval (.needsRfc "calling non-const function `foo`")) := by
  exact ⟨rfl, by decide⟩

/-- C5 (amended): for every item callee that is not a recognized const
function, the router first consults the panic interceptor, and if the
callee is not a panic entry point it rejects the call with the engine
unsupported-operation error (`throw_unsup_format!`, the same
forward-compatibility kind as `NeedsRfc` but not the
`ConstEvalErrKind::NeedsRfc` constructor) carrying the message
`calling non-const function <name>`, with an empty engine trace: the
body is never resolved or executed. -/
theorem find_mir_non_const_rejected (ecx : EvalCtx) (inst : Instance)
    (args : List OpTy) (ret : Option (PlaceTy × BasicBlock))
    (u : Option BasicBlock) (d : DefId) :
    inst.def_ = .item d →
    ecx.is_const_fn_raw d = false →
    some inst.def_id ≠ ecx.panic_fn →
    some inst.def_id ≠ ecx.begin_panic_fn →
    find_mir_or_eval_fn ecx inst args ret u =
      (.err (.unsupportedFormat ("calling non-const function `" ++ inst.name ++ "`")),
       []) := by
  intro hd hc h1 h2
  have hook : hook_panic_fn ecx inst args = .ok () := by
    unfold hook_panic_fn
    rw [if_neg (not_or.mpr ⟨h1, h2⟩)]
  simp [find_mir_or_eval_fn, hd, hc, hook]

/-- Witness for C5 (amended): the concrete callee `foo` (def-id 7, not
a panic entry point) is rejected with the formatted message and an
empty trace. -/
theorem find_mir_non_const_rejected_witness :
    find_mir_or_eval_fn exCtxNC ⟨.item 7, "foo"⟩ [] none none =
      (.err (.unsupportedFormat "calling non-const function `foo`"), []) :=
  find_mir_non_const_rejected exCtxNC ⟨.item 7, "foo"⟩ [] none none 7
    rfl rfl (by decide) (by decide)

/-- C6: Panic interception.  When the callee's def-id is one of the two
designated panic entry points and there is exactly one argument whose
dereference and string read succeed, `hook_panic_fn` fails with a
`Panic` error whose message is exactly the string read from the
argument and whose (file, line, column) triple is obtained from the
nearest caller location not produced by an implicit caller-location
parameter; an argument count other than one hits the fatal
`assert!(args.len() == 1)`; a callee that is no panic entry point
succeeds with no effect. -/
theorem hook_panic_fn_interception (ecx : EvalCtx) (inst : Instance)
    (args : List OpTy) :
    (∀ (arg : OpTy) (place : MemPlace) (s : String),
      (some inst.def_id = ecx.panic_fn ∨ some inst.def_id = ecx.begin_panic_fn) →
      args = [arg] →
      ecx.deref_operand arg = .ok place →
      ecx.read_str place = .ok s →
      hook_panic_fn ecx inst args =
        .err (.constEval (.panic s
          (ecx.location_triple_for_span ecx.find_closest_untracked_caller_location).1
          (ecx.location_triple_for_span ecx.find_closest_untracked_caller_location).2.1
          (ecx.location_triple_for_span ecx.find_closest_untracked_caller_location).2.2))) ∧
    ((some inst.def_id = ecx.panic_fn ∨ some inst.def_id = ecx.begin_panic_fn) →
      args.length ≠ 1 →
      hook_panic_fn ecx inst args = .fatal "assertion failed: args.len() == 1") ∧
    (some inst.def_id ≠ ecx.panic_fn → some inst.def_id ≠ ecx.begin_panic_fn →
      hook_panic_fn ecx inst args = .ok ()) := by
  refine ⟨?_, ?_, ?_⟩
  · intro arg place s hp ha h1 h2
    subst ha
    unfold hook_panic_fn
    rw [if_pos hp]
    simp [h1, h2]
  · intro hp hl
    unfold hook_panic_fn
    rw [if_pos hp, if_neg hl]
  · intro h1 h2
    unfold hook_panic_fn
    rw [if_neg (not_or.mpr ⟨h1, h2⟩)]

/-- Witness for C6: calling the first panic entry point (def-id 100 in
`exCtx`) with the single argument whose string reads `"oops"` produces
the `Panic` error with message `"oops"` and the location triple of span
3; two arguments hit the fatal assertion; a non-panic callee is a
no-op. -/
theorem hook_panic_fn_interception_witness :
    hook_panic_fn exCtx ⟨.item 100, "panic"⟩ [⟨0, ⟨true⟩⟩] =
      .err (.constEval (.panic "oops" "lib.rs" 3 4)) ∧
    hook_panic_fn exCtx ⟨.item 100, "panic"⟩ [⟨0, ⟨true⟩⟩, ⟨1, ⟨true⟩⟩] =
      .fatal "assertion failed: args.len() == 1" ∧
    hook_panic_fn exCtx ⟨.item 7, "foo"⟩ [⟨0, ⟨true⟩⟩] = .ok () :=
  ⟨(hook_panic_fn_interception exCtx ⟨.item 100, "panic"⟩ [⟨0, ⟨true⟩⟩]).1
      ⟨0, ⟨true⟩⟩ 0 "oops" (Or.inl rfl) rfl rfl rfl,
   (hook_panic_fn_interception exCtx ⟨.item 100, "panic"⟩
      [⟨0, ⟨true⟩⟩, ⟨1, ⟨true⟩⟩]).2.1 (Or.inl rfl) (by decide),
   (hook_panic_fn_interception exCtx ⟨.item 7, "foo"⟩ [⟨0, ⟨true⟩⟩]).2.2
      (by decide) (by decide)⟩

/-- Whether an outcome is an `AssertFailure` error or a fatal abort. -/
def isAssertFailureOrFatal : InterpResult Unit → Bool
  | .err (.constEval (.assertFailure _)) => true
  | .fatal _ => true
  | _ => false

/-- C7 counterexample: when the engine fails to evaluate the length
operand, `assert_panic` on a concrete `BoundsCheck` propagates that
engine error as a recoverable interpreter error (via `?`): the result
is neither an `AssertFailure` error nor a fatal abort, contrary to the
claim that the result is always `AssertFailure` and that evaluation
failure is fatal. -/
theorem assert_panic_counterexample :
    assert_panic exCtxFail (.boundsCheck 0 1) none = .err (.engine 42) ∧
    isAssertFailureOrFatal (assert_panic exCtxFail (.boundsCheck 0 1) none) =
      false :=
  ⟨rfl, rfl⟩

/-- C7 (amended): `assert_panic` never returns success.  For a
`BoundsCheck` message, when the operand evaluations succeed it rebuilds
`BoundsCheck` with the concrete machine-usize values wrapped in an
`AssertFailure` error; a failure of the `read_immediate` step is a
fatal internal error (`.expect(..)`), while a failure of
`eval_operand` (and likewise of the scalar conversions) propagates as a
recoverable error rather than a fatal one; every other assertion kind
(`Overflow` with its operator, `OverflowNeg`, `DivisionByZero`,
`RemainderByZero`, `ResumedAfterReturn`, `ResumedAfterPanic`) is passed
through unchanged into the `AssertFailure`. -/
theorem assert_panic_materialization (ecx : EvalCtx) (u : Option BasicBlock) :
    (∀ (msg : AssertKind Operand) (a : Unit), assert_panic ecx msg u ≠ .ok a) ∧
    (∀ (len index : Operand) (li ii : Imm) (lt it : ImmTyVal)
       (ls isv : ScalarVal) (lv iv : Nat),
      ecx.eval_operand len = .ok li → ecx.read_immediate li = .ok lt →
      ecx.to_scalar lt = .ok ls → ecx.to_machine_usize ls = .ok lv →
      ecx.eval_operand index = .ok ii → ecx.read_immediate ii = .ok it →
      ecx.to_scalar it = .ok isv → ecx.to_machine_usize isv = .ok iv →
      assert_panic ecx (.boundsCheck len index) u =
        .err (.constEval (.assertFailure (.boundsCheck lv iv)))) ∧
    (∀ (len index : Operand) (li : Imm) (e : InterpError),
      ecx.eval_operand len = .ok li → ecx.read_immediate li = .error e →
      assert_panic ecx (.boundsCheck len index) u = .fatal "cannot eval len") ∧
    (∀ (len index : Operand) (e : InterpError),
      ecx.eval_operand len = .error e →
      assert_panic ecx (.boundsCheck len index) u = .err e) ∧
    (∀ op, assert_panic ecx (.overflow op) u =
      .err (.constEval (.assertFailure (.overflow op)))) ∧
    (assert_panic ecx .overflowNeg u =
      .err (.constEval (.assertFailure .overflowNeg))) ∧
    (assert_panic ecx .divisionByZero u =
      .err (.constEval (.assertFailure .divisionByZero))) ∧
    (assert_panic ecx .remainderByZero u =
      .err (.constEval (.assertFailure .remainderByZero))) ∧
    (∀ g, assert_panic ecx (.resumedAfterReturn g) u =
      .err (.constEval (.assertFailure (.resumedAfterReturn g)))) ∧
    (∀ g, assert_panic ecx (.resumedAfterPanic g) u =
      .err (.constEval (.assertFailure (.resumedAfterPanic g)))) := by
  refine ⟨?_, ?_, ?_, ?_, fun op => rfl, rfl, rfl, rfl, fun g => rfl, fun g => rfl⟩
  · intro msg a
    unfold assert_panic
    rcases a
    cases msg <;> simp only [] <;> (repeat' split) <;> simp
  · intro len index li ii lt it ls isv lv iv h1 h2 h3 h4 h5 h6 h7 h8
    unfold assert_panic
    simp [h1, h2, h3, h4, h5, h6, h7, h8]
  · intro len index li e h1 h2
    unfold assert_panic
    simp [h1, h2]
  · intro len index e h1
    unfold assert_panic
    simp [h1]

/-- Witness for C7 (amended): on the identity oracle, the symbolic
`BoundsCheck` with `len = 10`, `index = 15` materializes to the
concrete `BoundsCheck 10 15` inside `AssertFailure`, and an `Overflow`
message passes its operator through unchanged. -/
theorem assert_panic_materialization_witness :
    assert_panic exCtx (.boundsCheck 10 15) none =
      .err (.constEval (.assertFailure (.boundsCheck 10 15))) ∧
    assert_panic exCtx (.overflow 2) none =
      .err (.constEval (.assertFailure (.overflow 2))) :=
  ⟨(assert_panic_materialization exCtx none).2.1 10 15 10 15 10 15 10 15 10 15
      rfl rfl rfl rfl rfl rfl rfl rfl,
   (assert_panic_materialization exCtx none).2.2.2.2.1 2⟩

end CtfeMachine
